import Mathlib

/-!
Shallow embedding of the zakatapi price-resolution routes.

The model translates the TypeScript route modules:
* the gold route (cache, monthly snapshot file, provider waterfall, GET handler),
* the silver route (same structure, different cache key and error string; one
  variant of the handler performs the snapshot write-through, the other leaves
  the snapshot write to a separate protected POST endpoint),
* the nisab routes (one delegating to the gold endpoint, one with the gold
  waterfall inlined).

Numbers are modelled as rationals; `Date.now()` timestamps are integers in
milliseconds; the process-wide `Map` cache and the persisted monthly JSON file
are association lists threaded explicitly through the handler.
-/

namespace ZakatApi

/-- Grams in one troy ounce, the constant `31.1034768` used by every adapter. -/
def gramsPerOz : ℚ := 31.1034768

/-- The payload type `GoldPricePayload` / `SilverPricePayload` of the routes. -/
structure PricePayload where
  price_oz : ℚ
  price_gram_24k : ℚ
  currency : String
  provider : String
  cached : Option Bool := none
deriving Repr, DecidableEq

/-! ## Request cache (`priceCache`, `getCachedPrice`, `setCachedPrice`) -/

/-- An entry of `priceCache`: insertion timestamp (ms) plus the payload. -/
structure CacheEntry where
  ts : ℤ
  data : PricePayload
deriving Repr, DecidableEq

/-- CACHE_TTL_MS = 10 * 60 * 1000. -/
def CACHE_TTL_MS : ℤ := 10 * 60 * 1000

/-- The process-wide `Map` from cache key to entry, as an association list. -/
abbrev Cache := List (String × CacheEntry)

/-- Lookup in the cache map (`priceCache.get`). -/
def cacheLookup (c : Cache) (k : String) : Option CacheEntry :=
  (c.find? (fun e => e.1 == k)).map Prod.snd

/-- Deletion from the cache map (`priceCache.delete`). -/
def cacheErase (c : Cache) (k : String) : Cache :=
  c.filter (fun e => !(e.1 == k))

/-- Translation of `getCachedPrice`: a hit within the TTL returns the stored
payload with `cached: true`; an expired entry is deleted and the read misses;
a missing key misses.  The pair carries the possibly-updated cache map. -/
def getCachedPrice (now : ℤ) (c : Cache) (key : String) :
    Option PricePayload × Cache :=
  match cacheLookup c key with
  | none => (none, c)
  | some e =>
      if now - e.ts > CACHE_TTL_MS then (none, cacheErase c key)
      else (some { e.data with cached := some true }, c)

/-- Translation of `setCachedPrice`: `priceCache.set(key, { ts: Date.now(), data })`,
an unconditional overwrite of the key with a fresh timestamp. -/
def setCachedPrice (now : ℤ) (c : Cache) (key : String) (data : PricePayload) :
    Cache :=
  (key, ⟨now, data⟩) :: cacheErase c key

/-! ## Monthly snapshot store (`gold-monthly-prices.json` / `silver-monthly-prices.json`) -/

/-- One record of the monthly prices file, as written by `updateMonthlyPriceFile`
and by the protected `update-monthly` POST endpoint. -/
structure MonthRecord where
  price : ℚ
  price_oz : ℚ
  price_gram_24k : ℚ
  currency : String
  provider : String
  cached : Bool
  timestamp : String
deriving Repr, DecidableEq

/-- The parsed JSON object of the monthly prices file: month key `YYYY-MM` to
record, as an association list. -/
abbrev MonthlyStore := List (String × MonthRecord)

/-- Lookup `monthlyPrices[key]`. -/
def storeLookup (s : MonthlyStore) (k : String) : Option MonthRecord :=
  (s.find? (fun e => e.1 == k)).map Prod.snd

/-- Keys of the store object, `Object.keys(monthlyPrices)`. -/
def storeKeys (s : MonthlyStore) : List String :=
  s.map Prod.fst

/-- Result of `Object.keys(monthlyPrices).sort().reverse()[0]`: the
lexicographically greatest key, `none` on an empty object. -/
def maxKey : List String → Option String
  | [] => none
  | k :: ks => some (ks.foldl (fun a b => if a < b then b else a) k)

/-- Spread `{ ...record, provider: 'monthly-fallback' }` typed back into the
payload shape used by the route: the record fields are copied and the provider
tag is overwritten.  The record was stored with `cached: true`, so the spread
carries that flag. -/
def recordToPayload (r : MonthRecord) : PricePayload :=
  { price_oz := r.price_oz
    price_gram_24k := r.price_gram_24k
    currency := r.currency
    provider := "monthly-fallback"
    cached := some r.cached }

/-- Translation of `getMonthlyFallback`.  `readOk = false` models the
`readFileSync`/`JSON.parse` throw (missing or corrupt file): the surrounding
`try`/`catch` returns `null`.  Otherwise the current month's record is used if
present; else the record under the greatest stored key; else `null`. -/
def getMonthlyFallback (readOk : Bool) (store : MonthlyStore)
    (currentMonth : String) : Option PricePayload :=
  if readOk = false then none
  else
    match storeLookup store currentMonth with
    | some r => some (recordToPayload r)
    | none =>
        match maxKey (storeKeys store) with
        | some latest => (storeLookup store latest).map recordToPayload
        | none => none

/-- The record written for the current month by `updateMonthlyPriceFile`. -/
def monthRecordOf (data : PricePayload) (timestamp : String) : MonthRecord :=
  { price := data.price_oz
    price_oz := data.price_oz
    price_gram_24k := data.price_gram_24k
    currency := data.currency
    provider := data.provider
    cached := true
    timestamp := timestamp }

/-- Upsert `monthlyPrices[monthKey] = record`. -/
def storeInsert (s : MonthlyStore) (k : String) (r : MonthRecord) : MonthlyStore :=
  (k, r) :: s.filter (fun e => !(e.1 == k))

/-- Translation of `updateMonthlyPriceFile`.  `loadOk = false` models the inner
load `try`/`catch` (missing or invalid file starts from `{}`); `persistOk = false`
models a `writeFileSync` fault caught by the outer `try`/`catch`, leaving the
persisted state `prev` unchanged.  The function is total: every fault is caught
inside it and nothing escapes to the caller. -/
def updateMonthlyPriceFile (loadOk persistOk : Bool) (prev : MonthlyStore)
    (monthKey timestamp : String) (data : PricePayload) : MonthlyStore :=
  let base := if loadOk then prev else []
  let updated := storeInsert base monthKey (monthRecordOf data timestamp)
  if persistOk then updated else prev

/-! ## Provider adapters

Each adapter is a pure function of the upstream HTTP interaction it performs.
An interaction either threw (network fault) or produced a response with an
`ok` status flag and a parsed body. -/

/-- One HTTP interaction: `fetch` threw, or returned status `ok` and a body. -/
inductive HttpAttempt (β : Type) where
  | threw
  | resp (ok : Bool) (body : β)
deriving Repr, DecidableEq

/-- Body fields read by `fetchGoldApiIo`: `data.price` and `data.price_gram_24k`,
each `some` exactly when `typeof` the field is `'number'`. -/
structure GoldApiBody where
  price : Option ℚ
  price_gram_24k : Option ℚ
deriving Repr, DecidableEq

/-- Translation of the goldapi.io key loop, 0-based key index `i`.  A `none`
attempt is an absent credential (`if (!key) continue`); a throw or a non-ok
status or a body lacking the two numeric fields advances to the next key. -/
def fetchGoldApiIoAux : Nat → List (Option (HttpAttempt GoldApiBody)) →
    Option PricePayload
  | _, [] => none
  | i, none :: rest => fetchGoldApiIoAux (i + 1) rest
  | i, some .threw :: rest => fetchGoldApiIoAux (i + 1) rest
  | i, some (.resp ok body) :: rest =>
      if ok then
        match body.price, body.price_gram_24k with
        | some poz, some pg =>
            some { price_oz := poz
                   price_gram_24k := pg
                   currency := "CAD"
                   provider := "goldapi.io (GOLD_API_KEY_" ++ toString (i + 1) ++ ")" }
        | _, _ => fetchGoldApiIoAux (i + 1) rest
      else fetchGoldApiIoAux (i + 1) rest

/-- `fetchGoldApiIo` over the configured `GOLD_API_KEYS` attempts. -/
def fetchGoldApiIo (attempts : List (Option (HttpAttempt GoldApiBody))) :
    Option PricePayload :=
  fetchGoldApiIoAux 0 attempts

/-- Body fields read by `fetchMetalsApi`: the `success` flag and `rates.CAD`
(`some` when present; JavaScript truthiness additionally rejects `0`). -/
structure MetalsBody where
  success : Bool
  ratesCAD : Option ℚ
deriving Repr, DecidableEq

/-- Translation of `fetchMetalsApi`: skipped without a key; on a truthy
`success` and truthy `rates.CAD` the price is the reciprocal rate and the gram
price is derived by dividing by `gramsPerOz`. -/
def fetchMetalsApi (hasKey : Bool) (a : HttpAttempt MetalsBody) :
    Option PricePayload :=
  if hasKey = false then none
  else
    match a with
    | .threw => none
    | .resp ok body =>
        if ok = false then none
        else
          match body.ratesCAD with
          | some r =>
              if body.success = true ∧ r ≠ 0 then
                some { price_oz := 1 / r
                       price_gram_24k := 1 / r / gramsPerOz
                       currency := "CAD"
                       provider := "metals-api" }
              else none
          | none => none

/-- Body fields read by the gold-route `fetchFcsApi`: the `status` flag and
`response[0].price` after `Number(...)` when the raw field was truthy (a
numeric string such as `"0"` or `"-5"` is truthy, so any rational can occur). -/
structure FcsBody where
  status : Bool
  price0 : Option ℚ
deriving Repr, DecidableEq

/-- Translation of the gold-route `fetchFcsApi`: on truthy `status` and a
truthy `response[0].price`, the gram price is derived by division. -/
def fetchFcsApi (hasKey : Bool) (a : HttpAttempt FcsBody) : Option PricePayload :=
  if hasKey = false then none
  else
    match a with
    | .threw => none
    | .resp ok body =>
        if ok = false then none
        else
          match body.price0 with
          | some v =>
              if body.status = true then
                some { price_oz := v
                       price_gram_24k := v / gramsPerOz
                       currency := "CAD"
                       provider := "fcsapi" }
              else none
          | none => none

/-- Candidate prices parsed by `fetchGoldPriceOrg` from the scraped HTML, one
per regex pattern that matched, in pattern order. -/
structure GoldPriceOrgBody where
  candidates : List ℚ
deriving Repr, DecidableEq

/-- First candidate passing `Number.isFinite(price_oz) && price_oz > 0`. -/
def firstPositive : List ℚ → Option ℚ
  | [] => none
  | v :: rest => if v > 0 then some v else firstPositive rest

/-- Translation of `fetchGoldPriceOrg`: scrapes the page and returns the first
matched price that is finite and strictly positive, deriving the gram price. -/
def fetchGoldPriceOrg (a : HttpAttempt GoldPriceOrgBody) : Option PricePayload :=
  match a with
  | .threw => none
  | .resp ok body =>
      if ok = false then none
      else
        match firstPositive body.candidates with
        | some v =>
            some { price_oz := v
                   price_gram_24k := v / gramsPerOz
                   currency := "CAD"
                   provider := "goldprice.org" }
        | none => none

/-- Body fields read by the silver-route `fetchFcsApi` from the XAGUSD quote:
`active.c` of the `FCM:XAGUSD` ticker when found and truthy. -/
structure SilverFcsBody where
  tickerC : Option ℚ
deriving Repr, DecidableEq

/-- Body fields read from the custom USD→CAD forex endpoint: `forexData.rate`
when present. -/
structure ForexBody where
  rate : Option ℚ
deriving Repr, DecidableEq

/-- `forexData?.rate ? Number(forexData.rate) : 1.4`: a missing or falsy
(zero) rate field falls back to the hardcoded 1.4. -/
def resolveUsdCad (rate : Option ℚ) : ℚ :=
  match rate with
  | some r => if r = 0 then 1.4 else r
  | none => 1.4

/-- Translation of the silver-route `fetchFcsApi` (USD quote plus conversion):
a missing key skips; a throw or non-ok silver response or missing ticker fails;
a non-ok forex response fails the attempt; otherwise the USD ounce price is
converted with `resolveUsdCad` and the gram price derived by division. -/
def fetchFcsApiSilver (hasKey : Bool) (silver : HttpAttempt SilverFcsBody)
    (forex : HttpAttempt ForexBody) : Option PricePayload :=
  if hasKey = false then none
  else
    match silver with
    | .threw => none
    | .resp ok body =>
        if ok = false then none
        else
          match body.tickerC with
          | none => none
          | some usd =>
              match forex with
              | .threw => none
              | .resp fok fbody =>
                  if fok = false then none
                  else
                    let rate := resolveUsdCad fbody.rate
                    some { price_oz := usd * rate
                           price_gram_24k := usd * rate / gramsPerOz
                           currency := "CAD"
                           provider := "fcsapi" }

/-! ## Provider waterfall and the GET handler -/

/-- Outcome of one `await fn()` step of the provider loop: a payload, a `null`
result (the adapters translate every internal fault to `null`), or a throw
caught by the loop's `try`/`catch`. -/
inductive FetchOutcome where
  | success (p : PricePayload)
  | noData
  | threw (msg : String)
deriving Repr, DecidableEq

/-- A collected diagnostic record `{ provider, message }`. -/
structure Diag where
  provider : String
  message : String
deriving Repr, DecidableEq

/-- Truth of an outcome being a success. -/
def FetchOutcome.isSuccess : FetchOutcome → Bool
  | .success _ => true
  | _ => false

/-- Translation of the provider `for` loop: first success wins; a `null`
result pushes `{ provider, message: 'No data in response' }` and a throw pushes
the error message, in both cases only when `debug` is set; the pair is the
first successful payload (if any) and the collected diagnostics. -/
def runChain (debug : Bool) : List (String × FetchOutcome) →
    Option PricePayload × List Diag
  | [] => (none, [])
  | (name, o) :: rest =>
      match o with
      | .success p => (some p, [])
      | .noData =>
          let r := runChain debug rest
          (r.1, (if debug then [⟨name, "No data in response"⟩] else []) ++ r.2)
      | .threw msg =>
          let r := runChain debug rest
          (r.1, (if debug then [⟨name, msg⟩] else []) ++ r.2)

/-- Response body of the successful branches: `{ price, price_oz,
price_gram_24k, currency, provider, cached }`. -/
structure OkBody where
  price : ℚ
  price_oz : ℚ
  price_gram_24k : ℚ
  currency : String
  provider : String
  cached : Bool
deriving Repr, DecidableEq

/-- Response body of the status-500 branch: the error string and, in debug
mode, the collected per-provider diagnostics. -/
structure ErrBody where
  error : String
  debugErrors : Option (List Diag)
deriving Repr, DecidableEq

/-- A route response: HTTP 200 with an ok body, or HTTP 500 with an error body. -/
inductive GetResult where
  | ok (b : OkBody)
  | err (e : ErrBody)
deriving Repr, DecidableEq

/-- Result of one handler invocation: the response plus the new states of the
process-wide cache and of the persisted monthly file. -/
structure GetOutcome where
  res : GetResult
  cache : Cache
  snapshot : MonthlyStore
deriving Repr, DecidableEq

/-- Per-request environment of a handler invocation: the clock, the outcomes
of the provider attempts in chain order, and the fault flags of the snapshot
file operations. -/
structure Env where
  now : ℤ
  currentMonth : String
  timestamp : String
  outcomes : List (String × FetchOutcome)
  writeLoadOk : Bool
  persistOk : Bool
  readOk : Bool
deriving Repr, DecidableEq

/-- Translation of the route `GET` handler, shared by the gold route and both
silver-route variants (`cacheKey` and `errMsg` differ per route;
`writesSnapshot` is `true` for the handlers that call `updateMonthlyPriceFile`
on a live success and `false` for the silver variant that leaves the snapshot
write to the protected POST endpoint).  Steps: parse `grams`/`debug` query
parameters; skip the cache read in debug mode; on a cache hit answer
`{ price, ...cached }`; otherwise run the provider loop, and on its success
write the cache (unless debug), write the monthly file, and answer with
`cached: false`; on exhaustion consult the monthly fallback; otherwise answer
the status-500 error body carrying diagnostics only in debug mode. -/
def routeGET (cacheKey errMsg : String) (writesSnapshot : Bool)
    (gramsParam debugParam : String) (env : Env)
    (cache : Cache) (snapshot : MonthlyStore) : GetOutcome :=
  let grams := gramsParam == "true"
  let debug := debugParam == "1"
  let read := if debug then (none, cache) else getCachedPrice env.now cache cacheKey
  match read.1 with
  | some c =>
      let price := if grams then c.price_gram_24k else c.price_oz
      { res := .ok { price := price
                     price_oz := c.price_oz
                     price_gram_24k := c.price_gram_24k
                     currency := c.currency
                     provider := c.provider
                     cached := c.cached.getD false }
        cache := read.2
        snapshot := snapshot }
  | none =>
      match (runChain debug env.outcomes).1 with
      | some result =>
          let cache2 := if debug then read.2
                        else setCachedPrice env.now read.2 cacheKey result
          let snapshot2 := if writesSnapshot then
              updateMonthlyPriceFile env.writeLoadOk env.persistOk snapshot
                env.currentMonth env.timestamp result
            else snapshot
          let price := if grams then result.price_gram_24k else result.price_oz
          { res := .ok { price := price
                         price_oz := result.price_oz
                         price_gram_24k := result.price_gram_24k
                         currency := result.currency
                         provider := result.provider
                         cached := false }
            cache := cache2
            snapshot := snapshot2 }
      | none =>
          match getMonthlyFallback env.readOk snapshot env.currentMonth with
          | some fb =>
              let price := if grams then fb.price_gram_24k else fb.price_oz
              { res := .ok { price := price
                             price_oz := fb.price_oz
                             price_gram_24k := fb.price_gram_24k
                             currency := fb.currency
                             provider := fb.provider
                             cached := false }
                cache := read.2
                snapshot := snapshot }
          | none =>
              { res := .err { error := errMsg
                              debugErrors :=
                                if debug then some (runChain debug env.outcomes).2
                                else none }
                cache := read.2
                snapshot := snapshot }

/-- The gold route `GET`: cache key `XAU-CAD`, writes the monthly file on a
live success. -/
def goldGET : String → String → Env → Cache → MonthlyStore → GetOutcome :=
  routeGET "XAU-CAD" "Failed to fetch gold price from all providers" true

/-- The silver route `GET` (variant with write-through): cache key `XAG-CAD`. -/
def silverGET : String → String → Env → Cache → MonthlyStore → GetOutcome :=
  routeGET "XAG-CAD" "Failed to fetch silver price from all providers" true

/-- The silver route `GET` (variant without in-handler snapshot write; the
monthly file is written by the protected `update-monthly` POST endpoint). -/
def silverGETNoWrite : String → String → Env → Cache → MonthlyStore → GetOutcome :=
  routeGET "XAG-CAD" "Failed to fetch silver price from all providers" false

/-! ## Nisab routes -/

/-- NISAB_GRAMS = 85, nisab being the value of 85 grams of gold. -/
def NISAB_GRAMS : ℚ := 85

/-- Response body of a successful nisab computation: `{ nisab, price_gram_24k,
nisab_grams, currency, provider, cached }` (the `type` marker field is not
modelled). -/
structure NisabOkBody where
  nisab : ℚ
  price_gram_24k : ℚ
  nisab_grams : ℚ
  currency : String
  provider : String
  cached : Bool
deriving Repr, DecidableEq

/-- A nisab route response: HTTP 200 with the body, or an error body. -/
inductive NisabResult where
  | ok (b : NisabOkBody)
  | err (msg : String)
deriving Repr, DecidableEq

/-- Translation of the delegating nisab route `GET`: it fetches
`/api/gold?grams=true` internally and multiplies the returned gram price by
`NISAB_GRAMS`.  `threw = true` models the outer `try`/`catch` (the internal
fetch itself threw); a non-ok gold status answers `'Failed to fetch gold
price'`; a gold error body answers its error; otherwise the nisab is computed
from the gold body. -/
def nisabGET (threw : Bool) (goldRes : GetResult) : NisabResult :=
  if threw then .err "Failed to calculate nisab value"
  else
    match goldRes with
    | .err _ => .err "Failed to fetch gold price"
    | .ok b =>
        .ok { nisab := b.price_gram_24k * NISAB_GRAMS
              price_gram_24k := b.price_gram_24k
              nisab_grams := NISAB_GRAMS
              currency := b.currency
              provider := b.provider
              cached := b.cached }

/-- Translation of the nisab route variant with the gold waterfall inlined:
same cache key `XAU-CAD`, same provider loop, read-only monthly fallback, no
snapshot write, and `nisab = price_gram_24k * NISAB_GRAMS` in every successful
branch.  The pair carries the updated cache. -/
def nisabChainGET (debugParam : String) (env : Env) (cache : Cache)
    (snapshot : MonthlyStore) : NisabResult × Cache :=
  let debug := debugParam == "1"
  let read := if debug then (none, cache) else getCachedPrice env.now cache "XAU-CAD"
  match read.1 with
  | some c =>
      (.ok { nisab := c.price_gram_24k * NISAB_GRAMS
             price_gram_24k := c.price_gram_24k
             nisab_grams := NISAB_GRAMS
             currency := c.currency
             provider := c.provider
             cached := true }, read.2)
  | none =>
      match (runChain debug env.outcomes).1 with
      | some result =>
          let cache2 := if debug then read.2
                        else setCachedPrice env.now read.2 "XAU-CAD" result
          (.ok { nisab := result.price_gram_24k * NISAB_GRAMS
                 price_gram_24k := result.price_gram_24k
                 nisab_grams := NISAB_GRAMS
                 currency := result.currency
                 provider := result.provider
                 cached := false }, cache2)
      | none =>
          match getMonthlyFallback env.readOk snapshot env.currentMonth with
          | some fb =>
              (.ok { nisab := fb.price_gram_24k * NISAB_GRAMS
                     price_gram_24k := fb.price_gram_24k
                     nisab_grams := NISAB_GRAMS
                     currency := fb.currency
                     provider := fb.provider
                     cached := false }, read.2)
          | none =>
              (.err "Failed to fetch nisab value from all providers", read.2)

/-! ## Concrete sample values used by closed witness statements -/

/-- A sample payload as `fetchMetalsApi` would produce it. -/
def pMetals : PricePayload :=
  { price_oz := 2, price_gram_24k := 1, currency := "CAD",
    provider := "metals-api" }

/-- A sample environment: goldapi.io returns no data, metals-api succeeds,
fcsapi throws. -/
def envTwoProviders : Env :=
  { now := 0, currentMonth := "2024-01", timestamp := "t",
    outcomes := [("goldapi.io", .noData), ("metals-api", .success pMetals),
                 ("fcsapi", .threw "boom")],
    writeLoadOk := true, persistOk := true, readOk := true }

/-- A sample environment in which every provider fails or throws. -/
def envAllFail : Env :=
  { now := 0, currentMonth := "2024-01", timestamp := "t",
    outcomes := [("goldapi.io", .noData), ("metals-api", .noData),
                 ("fcsapi", .threw "boom"), ("goldprice.org", .noData)],
    writeLoadOk := true, persistOk := true, readOk := true }

/-- The all-fail environment with current month 2024-04. -/
def envAllFailApril : Env :=
  { now := 0, currentMonth := "2024-04", timestamp := "t",
    outcomes := [("goldapi.io", .noData), ("metals-api", .noData),
                 ("fcsapi", .threw "boom"), ("goldprice.org", .noData)],
    writeLoadOk := true, persistOk := true, readOk := true }

/-- A sample snapshot record. -/
def recJan : MonthRecord :=
  { price := 100, price_oz := 100, price_gram_24k := 3, currency := "CAD",
    provider := "goldapi.io (GOLD_API_KEY_1)", cached := true,
    timestamp := "2024-01-01T00:00:00Z" }

/-- A second sample snapshot record. -/
def recMar : MonthRecord :=
  { price := 120, price_oz := 120, price_gram_24k := 4, currency := "CAD",
    provider := "metals-api", cached := true,
    timestamp := "2024-03-01T00:00:00Z" }

/-! ## Helper lemmas -/

theorem cacheLookup_erase_self (c : Cache) (k : String) :
    cacheLookup (cacheErase c k) k = none := by
  induction c with
  | nil => rfl
  | cons hd tl ih =>
      by_cases hk : (hd.1 == k) = true
      · simp [cacheErase, cacheLookup, List.filter_cons, hk] at ih ⊢
      · simp only [cacheErase, List.filter_cons, hk, Bool.not_false, if_true,
          Bool.not_eq_true'] at ih ⊢
        simp [cacheLookup, List.find?_cons, hk] at ih ⊢

theorem cacheLookup_set_self (now : ℤ) (c : Cache) (k : String)
    (d : PricePayload) :
    cacheLookup (setCachedPrice now c k d) k = some ⟨now, d⟩ := by
  simp [setCachedPrice, cacheLookup, List.find?_cons]

/-- C4: an entry inserted at `t0` is returned (with the `cached` flag set) as
long as `now - t0 ≤ 600` seconds, is absent and lazily evicted as soon as
`now - t0 > 600` seconds, and `setCachedPrice` unconditionally overwrites the
key with a fresh timestamp. -/
theorem cache_ttl_and_overwrite (now t0 : ℤ) (c c2 : Cache) (key : String)
    (e : CacheEntry) (d : PricePayload) (h : cacheLookup c key = some e) :
    (now - e.ts ≤ 600 * 1000 →
       getCachedPrice now c key = (some { e.data with cached := some true }, c))
    ∧ (now - e.ts > 600 * 1000 →
       getCachedPrice now c key = (none, cacheErase c key)
         ∧ cacheLookup (cacheErase c key) key = none)
    ∧ cacheLookup (setCachedPrice t0 c2 key d) key = some ⟨t0, d⟩ := by
  refine ⟨fun hle => ?_, fun hgt => ?_, cacheLookup_set_self t0 c2 key d⟩
  · have : ¬ (now - e.ts > CACHE_TTL_MS) := by
      simp only [CACHE_TTL_MS]; omega
    simp [getCachedPrice, h, this]
  · have : now - e.ts > CACHE_TTL_MS := by
      simp only [CACHE_TTL_MS]; omega
    exact ⟨by simp [getCachedPrice, h, this], cacheLookup_erase_self c key⟩

/-- Witness for `cache_ttl_and_overwrite` at a concrete cache and clock. -/
theorem cache_ttl_and_overwrite_witness :
    (getCachedPrice 600000 [("XAU-CAD",
        ⟨0, { price_oz := 2, price_gram_24k := 1, currency := "CAD",
              provider := "metals-api" }⟩)] "XAU-CAD"
      = (some { price_oz := 2, price_gram_24k := 1, currency := "CAD",
                provider := "metals-api", cached := some true },
         [("XAU-CAD",
            ⟨0, { price_oz := 2, price_gram_24k := 1, currency := "CAD",
                  provider := "metals-api" }⟩)]))
    ∧ cacheLookup (setCachedPrice 7 [] "XAU-CAD"
        { price_oz := 2, price_gram_24k := 1, currency := "CAD",
          provider := "metals-api" }) "XAU-CAD"
      = some ⟨7, { price_oz := 2, price_gram_24k := 1, currency := "CAD",
                   provider := "metals-api" }⟩ := by
  have h := cache_ttl_and_overwrite 600000 7
    [("XAU-CAD",
       ⟨0, { price_oz := 2, price_gram_24k := 1, currency := "CAD",
             provider := "metals-api" }⟩)] [] "XAU-CAD"
    ⟨0, { price_oz := 2, price_gram_24k := 1, currency := "CAD",
          provider := "metals-api" }⟩
    { price_oz := 2, price_gram_24k := 1, currency := "CAD",
      provider := "metals-api" }
    (by decide)
  exact ⟨h.1 (by decide), h.2.2⟩

/-- Diagnostic record produced by one non-success chain step. -/
def diagOf : String × FetchOutcome → Option Diag
  | (n, .noData) => some ⟨n, "No data in response"⟩
  | (n, .threw m) => some ⟨n, m⟩
  | (_, .success _) => none

theorem runChain_first_success (debug : Bool)
    (pre : List (String × FetchOutcome)) (name : String) (p : PricePayload)
    (rest : List (String × FetchOutcome))
    (hpre : ∀ x ∈ pre, x.2.isSuccess = false) :
    runChain debug (pre ++ (name, .success p) :: rest)
      = (some p, if debug then pre.filterMap diagOf else []) := by
  induction pre with
  | nil => simp [runChain]
  | cons hd tl ih =>
      have hhd := hpre hd (by simp)
      have htl : ∀ x ∈ tl, x.2.isSuccess = false := fun x hx =>
        hpre x (by simp [hx])
      obtain ⟨n, o⟩ := hd
      cases o with
      | success q => simp [FetchOutcome.isSuccess] at hhd
      | noData =>
          rw [List.cons_append]
          simp only [runChain, ih htl, List.filterMap_cons, diagOf]
          cases debug <;> simp
      | threw m =>
          rw [List.cons_append]
          simp only [runChain, ih htl, List.filterMap_cons, diagOf]
          cases debug <;> simp

theorem runChain_all_fail (debug : Bool) (l : List (String × FetchOutcome))
    (hl : ∀ x ∈ l, x.2.isSuccess = false) :
    runChain debug l = (none, if debug then l.filterMap diagOf else []) := by
  induction l with
  | nil => cases debug <;> simp [runChain]
  | cons hd tl ih =>
      have hhd := hl hd (by simp)
      have htl : ∀ x ∈ tl, x.2.isSuccess = false := fun x hx =>
        hl x (by simp [hx])
      obtain ⟨n, o⟩ := hd
      cases o with
      | success q => simp [FetchOutcome.isSuccess] at hhd
      | noData =>
          simp only [runChain, ih htl, List.filterMap_cons, diagOf]
          cases debug <;> simp
      | threw m =>
          simp only [runChain, ih htl, List.filterMap_cons, diagOf]
          cases debug <;> simp

theorem getCachedPrice_nil (now : ℤ) (k : String) :
    getCachedPrice now [] k = (none, []) := rfl

/-- C1: the chain is tried strictly in order — with every adapter before
`name` failing or skipping and `name` succeeding with payload `p`, the chain
returns `p`, the steps after the success are never consulted, and the route
response carries exactly `p`'s provider tag. -/
theorem chain_first_success_wins (debug : Bool) (ck em gp dp : String)
    (ws : Bool) (pre rest : List (String × FetchOutcome)) (name : String)
    (p : PricePayload) (env : Env) (snap : MonthlyStore)
    (hpre : ∀ x ∈ pre, x.2.isSuccess = false)
    (henv : env.outcomes = pre ++ (name, .success p) :: rest) :
    (runChain debug (pre ++ (name, .success p) :: rest)).1 = some p
    ∧ runChain debug (pre ++ (name, .success p) :: rest)
        = runChain debug (pre ++ [(name, .success p)])
    ∧ (routeGET ck em ws gp dp env [] snap).res
        = .ok { price := if gp == "true" then p.price_gram_24k else p.price_oz
                price_oz := p.price_oz
                price_gram_24k := p.price_gram_24k
                currency := p.currency
                provider := p.provider
                cached := false } := by
  refine ⟨?_, ?_, ?_⟩
  · rw [runChain_first_success debug pre name p rest hpre]
  · rw [runChain_first_success debug pre name p rest hpre,
        runChain_first_success debug pre name p [] hpre]
  · simp only [routeGET, henv, getCachedPrice_nil, ite_self,
      runChain_first_success (dp == "1") pre name p rest hpre]

/-- Witness for `chain_first_success_wins`: goldapi.io fails, metals-api
succeeds, the response is tagged `metals-api`. -/
theorem chain_first_success_wins_witness :
    (runChain true ([("goldapi.io", .noData)] ++
        ("metals-api", .success pMetals) :: [("fcsapi", .threw "boom")])).1
      = some pMetals
    ∧ (routeGET "XAU-CAD" "Failed to fetch gold price from all providers" true
        "" "" envTwoProviders [] []).res
      = .ok { price := pMetals.price_oz, price_oz := pMetals.price_oz,
              price_gram_24k := pMetals.price_gram_24k,
              currency := pMetals.currency, provider := pMetals.provider,
              cached := false } := by
  have h := chain_first_success_wins true "XAU-CAD"
    "Failed to fetch gold price from all providers" "" "" true
    [("goldapi.io", .noData)] [("fcsapi", .threw "boom")] "metals-api"
    pMetals envTwoProviders [] (by decide) rfl
  exact ⟨h.1, h.2.2⟩

theorem foldl_max_bounds (l : List String) (a : String) :
    a ≤ l.foldl (fun x b => if x < b then b else x) a
    ∧ ∀ x ∈ l, x ≤ l.foldl (fun x b => if x < b then b else x) a := by
  induction l generalizing a with
  | nil => simp
  | cons hd tl ih =>
      have hstep : a ≤ (if a < hd then hd else a)
          ∧ hd ≤ (if a < hd then hd else a) := by
        by_cases hlt : a < hd
        · simp [hlt, le_of_lt hlt]
        · simp [hlt, le_of_not_lt hlt]
      have ihs := ih (if a < hd then hd else a)
      simp only [List.foldl_cons]
      refine ⟨le_trans hstep.1 ihs.1, ?_⟩
      intro x hx
      rcases List.mem_cons.mp hx with hx | hx
      · subst hx
        exact le_trans hstep.2 ihs.1
      · exact ihs.2 x hx

theorem maxKey_ub (l : List String) (k : String) (h : maxKey l = some k) :
    ∀ x ∈ l, x ≤ k := by
  cases l with
  | nil => simp [maxKey] at h
  | cons hd tl =>
      simp only [maxKey, Option.some.injEq] at h
      intro x hx
      rcases List.mem_cons.mp hx with hx | hx
      · exact h ▸ hx ▸ (foldl_max_bounds tl hd).1
      · exact h ▸ (foldl_max_bounds tl hd).2 x hx

/-- C2 counterexample: with only the future month key `2099-12` stored and
current month `2024-03`, the claim demands that nothing be returned (no stored
key is strictly less than the current month), but the code returns the record
stored under `2099-12`. -/
theorem snapshot_future_key_returned :
    getMonthlyFallback true [("2099-12", recMar)] "2024-03"
      = some (recordToPayload recMar)
    ∧ ¬ ("2099-12" < "2024-03") := by
  constructor
  · rfl
  · rw [String.lt_iff_toList_lt]
    decide

/-- C2 amended: the fallback returns the current month's record when present;
otherwise the record under the lexicographically greatest stored key (which
need not be less than the current month); otherwise nothing; and a resolution
that falls back after chain exhaustion is tagged `monthly-fallback` with
`cached = false`. -/
theorem snapshot_fallback_selection (store store2 : MonthlyStore)
    (cm cm2 latest : String) (r r2 : MonthRecord) (ck em gp dp : String)
    (ws : Bool) (env : Env)
    (h1 : storeLookup store cm = none)
    (h2 : maxKey (storeKeys store) = some latest)
    (h3 : storeLookup store latest = some r)
    (h4 : storeLookup store2 cm2 = some r2)
    (henv : ∀ x ∈ env.outcomes, x.2.isSuccess = false)
    (hro : env.readOk = true) (hcm : env.currentMonth = cm) :
    getMonthlyFallback true store cm = some (recordToPayload r)
    ∧ (∀ x ∈ storeKeys store, x ≤ latest)
    ∧ getMonthlyFallback true store2 cm2 = some (recordToPayload r2)
    ∧ (∀ (ro : Bool) (cm3 : String), getMonthlyFallback ro [] cm3 = none)
    ∧ (routeGET ck em ws gp dp env [] store).res
        = .ok { price := if gp == "true" then r.price_gram_24k else r.price_oz
                price_oz := r.price_oz
                price_gram_24k := r.price_gram_24k
                currency := r.currency
                provider := "monthly-fallback"
                cached := false } := by
  have hf : getMonthlyFallback true store cm = some (recordToPayload r) := by
    simp [getMonthlyFallback, h1, h2, h3]
  refine ⟨hf, maxKey_ub _ _ h2, ?_, ?_, ?_⟩
  · simp [getMonthlyFallback, h4]
  · intro ro cm3
    cases ro <;> simp [getMonthlyFallback, storeLookup, storeKeys, maxKey]
  · simp only [routeGET, getCachedPrice_nil, ite_self,
      runChain_all_fail (dp == "1") env.outcomes henv, hro, hcm, hf,
      recordToPayload]

/-- Witness for `snapshot_fallback_selection` at a concrete store with months
2024-01 and 2024-03 and current month 2024-04. -/
theorem snapshot_fallback_selection_witness :
    getMonthlyFallback true [("2024-01", recJan), ("2024-03", recMar)] "2024-04"
      = some (recordToPayload recMar)
    ∧ (routeGET "XAU-CAD" "Failed to fetch gold price from all providers" true
        "" "" envAllFailApril []
        [("2024-01", recJan), ("2024-03", recMar)]).res
      = .ok { price := recMar.price_oz, price_oz := recMar.price_oz,
              price_gram_24k := recMar.price_gram_24k,
              currency := recMar.currency, provider := "monthly-fallback",
              cached := false } := by
  have hlt : ("2024-01" : String) < "2024-03" := by
    rw [String.lt_iff_toList_lt]; decide
  have hmax : maxKey
      (storeKeys [("2024-01", recJan), ("2024-03", recMar)]) = some "2024-03" := by
    simp only [maxKey, storeKeys, List.map_cons, List.map_nil,
      List.foldl_cons, List.foldl_nil, if_pos hlt]
  have h := snapshot_fallback_selection
    [("2024-01", recJan), ("2024-03", recMar)] [("2024-03", recMar)]
    "2024-04" "2024-03" "2024-03" recMar recMar "XAU-CAD"
    "Failed to fetch gold price from all providers" "" "" true envAllFailApril
    (by decide) hmax (by decide) (by decide) (by decide) rfl rfl
  exact ⟨h.1, h.2.2.2.2⟩

/-- A payload passed through unvalidated by the goldapi.io adapter from a
hostile upstream body: non-positive ounce price and inconsistent gram price. -/
def pBadGoldApi : PricePayload :=
  { price_oz := -1, price_gram_24k := 5, currency := "CAD",
    provider := "goldapi.io (GOLD_API_KEY_1)" }

/-- Environment in which the chain's first provider resolves to the hostile
goldapi.io payload. -/
def envBadGoldApi : Env :=
  { now := 0, currentMonth := "2024-01", timestamp := "t",
    outcomes := [("goldapi.io", .success pBadGoldApi)],
    writeLoadOk := true, persistOk := true, readOk := true }

/-- C3 counterexample: the goldapi.io adapter performs no positivity or
consistency validation, so an upstream body with `price = -1` and
`price_gram_24k = 5` yields a successful resolution whose `price_per_unit` is
not strictly positive and whose gram price is off by more than 1 from
`price_per_unit / 31.1034768`. -/
theorem adapter_accepts_nonpositive_price :
    fetchGoldApiIo [some (.resp true ⟨some (-1), some 5⟩)] = some pBadGoldApi
    ∧ (routeGET "XAU-CAD" "Failed to fetch gold price from all providers" true
        "" "" envBadGoldApi [] []).res
      = .ok { price := -1, price_oz := -1, price_gram_24k := 5,
              currency := "CAD", provider := "goldapi.io (GOLD_API_KEY_1)",
              cached := false }
    ∧ ¬ ((-1 : ℚ) > 0)
    ∧ 1 < |(5 : ℚ) - (-1) / gramsPerOz| := by
  refine ⟨by decide, by decide, by norm_num, ?_⟩
  calc (1 : ℚ) < 5 - (-1) / gramsPerOz := by norm_num [gramsPerOz]
    _ ≤ |(5 : ℚ) - (-1) / gramsPerOz| := le_abs_self _

/-- Wellformedness of one goldapi.io upstream body relative to tolerance
`tol`: a numeric `price` field is positive, and when both numeric fields are
present the gram price agrees with the derived one within `tol`. -/
def GoldApiAttemptWf (tol : ℚ) : Option (HttpAttempt GoldApiBody) → Prop
  | some (.resp _ body) =>
      (∀ v, body.price = some v → 0 < v)
      ∧ (∀ v g, body.price = some v → body.price_gram_24k = some g →
          |g - v / gramsPerOz| ≤ tol)
  | _ => True

theorem fetchGoldApiIoAux_wf (tol : ℚ) (i : Nat)
    (attempts : List (Option (HttpAttempt GoldApiBody))) (p : PricePayload)
    (hwf : ∀ x ∈ attempts, GoldApiAttemptWf tol x)
    (h : fetchGoldApiIoAux i attempts = some p) :
    0 < p.price_oz ∧ |p.price_gram_24k - p.price_oz / gramsPerOz| ≤ tol := by
  induction attempts generalizing i with
  | nil => simp [fetchGoldApiIoAux] at h
  | cons hd tl ih =>
      have htl : ∀ x ∈ tl, GoldApiAttemptWf tol x := fun x hx =>
        hwf x (by simp [hx])
      match hd with
      | none =>
          rw [fetchGoldApiIoAux] at h
          exact ih (i + 1) htl h
      | some .threw =>
          rw [fetchGoldApiIoAux] at h
          exact ih (i + 1) htl h
      | some (.resp ok body) =>
          have hhd : GoldApiAttemptWf tol (some (.resp ok body)) :=
            hwf _ (by simp)
          rw [fetchGoldApiIoAux] at h
          split at h
          · split at h
            · rename_i poz pg hpoz hpg
              obtain rfl := Option.some.inj h
              exact ⟨hhd.1 poz hpoz, hhd.2 poz pg hpoz hpg⟩
            · exact ih (i + 1) htl h
          · exact ih (i + 1) htl h

theorem firstPositive_pos (l : List ℚ) (v : ℚ) (h : firstPositive l = some v) :
    0 < v := by
  induction l with
  | nil => simp [firstPositive] at h
  | cons hd tl ih =>
      rw [firstPositive] at h
      split at h
      · rename_i hpos
        exact (Option.some.inj h) ▸ hpos
      · exact ih h

/-- C3 amended: the metals-api, fcsapi and goldprice.org adapters derive the
gram price exactly as `price_per_unit / 31.1034768`; goldprice.org moreover
guarantees `price_per_unit > 0`; the goldapi.io adapter passes both upstream
numbers through unvalidated, so positivity and tolerance hold exactly when the
upstream body satisfies them. -/
theorem adapter_price_consistency :
    (∀ (hk : Bool) (a : HttpAttempt MetalsBody) (p : PricePayload),
        fetchMetalsApi hk a = some p →
        p.price_gram_24k = p.price_oz / gramsPerOz)
    ∧ (∀ (hk : Bool) (a : HttpAttempt FcsBody) (p : PricePayload),
        fetchFcsApi hk a = some p →
        p.price_gram_24k = p.price_oz / gramsPerOz)
    ∧ (∀ (a : HttpAttempt GoldPriceOrgBody) (p : PricePayload),
        fetchGoldPriceOrg a = some p →
        0 < p.price_oz ∧ p.price_gram_24k = p.price_oz / gramsPerOz)
    ∧ (∀ (tol : ℚ) (attempts : List (Option (HttpAttempt GoldApiBody)))
        (p : PricePayload),
        (∀ x ∈ attempts, GoldApiAttemptWf tol x) →
        fetchGoldApiIo attempts = some p →
        0 < p.price_oz ∧ |p.price_gram_24k - p.price_oz / gramsPerOz| ≤ tol) := by
  refine ⟨?_, ?_, ?_, ?_⟩
  · intro hk a p h
    simp only [fetchMetalsApi] at h
    split at h
    · exact absurd h (by simp)
    · split at h
      · exact absurd h (by simp)
      · split at h
        · exact absurd h (by simp)
        · split at h
          · split at h
            · obtain ⟨rfl⟩ := Option.some.inj h
              rfl
            · exact absurd h (by simp)
          · exact absurd h (by simp)
  · intro hk a p h
    simp only [fetchFcsApi] at h
    split at h
    · exact absurd h (by simp)
    · split at h
      · exact absurd h (by simp)
      · split at h
        · exact absurd h (by simp)
        · split at h
          · split at h
            · obtain ⟨rfl⟩ := Option.some.inj h
              rfl
            · exact absurd h (by simp)
          · exact absurd h (by simp)
  · intro a p h
    simp only [fetchGoldPriceOrg] at h
    split at h
    · exact absurd h (by simp)
    · split at h
      · exact absurd h (by simp)
      · split at h
        · rename_i v hv
          obtain ⟨rfl⟩ := Option.some.inj h
          exact ⟨firstPositive_pos _ _ hv, rfl⟩
        · exact absurd h (by simp)
  · intro tol attempts p hwf h
    exact fetchGoldApiIoAux_wf tol 0 attempts p hwf h

/-- Payload produced by `fetchMetalsApi` from rate 1. -/
def pMetalsOne : PricePayload :=
  { price_oz := 1 / 1, price_gram_24k := 1 / 1 / gramsPerOz, currency := "CAD",
    provider := "metals-api" }

/-- Payload produced by the gold-route `fetchFcsApi` from price 3. -/
def pFcs3 : PricePayload :=
  { price_oz := 3, price_gram_24k := 3 / gramsPerOz, currency := "CAD",
    provider := "fcsapi" }

/-- Payload produced by `fetchGoldPriceOrg` from a scraped match of 4. -/
def pGpo4 : PricePayload :=
  { price_oz := 4, price_gram_24k := 4 / gramsPerOz, currency := "CAD",
    provider := "goldprice.org" }

/-- Payload produced by `fetchGoldApiIo` from a consistent upstream body. -/
def pGoldApi2 : PricePayload :=
  { price_oz := 2, price_gram_24k := 2 / gramsPerOz, currency := "CAD",
    provider := "goldapi.io (GOLD_API_KEY_1)" }

/-- Witness for `adapter_price_consistency` at concrete upstream bodies. -/
theorem adapter_price_consistency_witness :
    pMetalsOne.price_gram_24k = pMetalsOne.price_oz / gramsPerOz
    ∧ pFcs3.price_gram_24k = pFcs3.price_oz / gramsPerOz
    ∧ (0 < pGpo4.price_oz
        ∧ pGpo4.price_gram_24k = pGpo4.price_oz / gramsPerOz)
    ∧ (0 < pGoldApi2.price_oz
        ∧ |pGoldApi2.price_gram_24k - pGoldApi2.price_oz / gramsPerOz| ≤ 0) := by
  refine ⟨adapter_price_consistency.1 true (.resp true ⟨true, some 1⟩)
      pMetalsOne rfl,
    adapter_price_consistency.2.1 true (.resp true ⟨true, some 3⟩)
      pFcs3 rfl,
    adapter_price_consistency.2.2.1 (.resp true ⟨[4]⟩) pGpo4 rfl,
    adapter_price_consistency.2.2.2 0
      [some (.resp true ⟨some 2, some (2 / gramsPerOz)⟩)] pGoldApi2
      ?_ rfl⟩
  intro x hx
  simp only [List.mem_singleton] at hx
  subst hx
  refine ⟨?_, ?_⟩
  · intro v hv
    cases hv
    norm_num
  · intro v g hv hg
    cases hv
    cases hg
    simp

/-- C5 counterexample: in debug mode a successful live chain resolution does
NOT perform the Request Cache write — starting from an empty cache the final
cache is still empty — even though the snapshot write-through does happen;
this refutes the claim that both writes are performed in debug mode. -/
theorem debug_mode_skips_cache_write :
    (goldGET "" "1" envTwoProviders [] []).res
      = .ok { price := 2, price_oz := 2, price_gram_24k := 1,
              currency := "CAD", provider := "metals-api", cached := false }
    ∧ (goldGET "" "1" envTwoProviders [] []).cache = []
    ∧ storeLookup (goldGET "" "1" envTwoProviders [] []).snapshot "2024-01"
      = some (monthRecordOf pMetals "t") := by
  refine ⟨by decide, by decide, by decide⟩

theorem routeGET_debug_success (ck em : String) (ws : Bool) (g : String)
    (env : Env) (cache : Cache) (snap : MonthlyStore)
    (pre rest : List (String × FetchOutcome)) (name : String) (p : PricePayload)
    (hpre : ∀ x ∈ pre, x.2.isSuccess = false)
    (henv : env.outcomes = pre ++ (name, .success p) :: rest) :
    routeGET ck em ws g "1" env cache snap =
      { res := .ok { price := if g == "true" then p.price_gram_24k else p.price_oz
                     price_oz := p.price_oz
                     price_gram_24k := p.price_gram_24k
                     currency := p.currency
                     provider := p.provider
                     cached := false }
        cache := cache
        snapshot := if ws then
            updateMonthlyPriceFile env.writeLoadOk env.persistOk snap
              env.currentMonth env.timestamp p
          else snap } := by
  have hb : (("1" : String) == "1") = true := rfl
  simp only [routeGET, henv, hb, if_true,
    runChain_first_success true pre name p rest hpre]

/-- C5 amended: debug mode always bypasses the cache read (the response does
not depend on the cache contents) and skips the Request Cache write (the cache
is returned unchanged, even on a live success); the snapshot write-through
still occurs on a successful live resolution of the gold route. -/
theorem debug_bypasses_and_skips_cache (ck em : String) (ws : Bool)
    (g : String) (env : Env) (cache cache' : Cache) (snap : MonthlyStore)
    (pre rest : List (String × FetchOutcome)) (name : String) (p : PricePayload)
    (hpre : ∀ x ∈ pre, x.2.isSuccess = false)
    (henv : env.outcomes = pre ++ (name, .success p) :: rest) :
    (routeGET ck em ws g "1" env cache snap).res
      = (routeGET ck em ws g "1" env cache' snap).res
    ∧ (routeGET ck em ws g "1" env cache snap).cache = cache
    ∧ (goldGET g "1" env cache snap).snapshot
      = updateMonthlyPriceFile env.writeLoadOk env.persistOk snap
          env.currentMonth env.timestamp p := by
  refine ⟨?_, ?_, ?_⟩
  · rw [routeGET_debug_success ck em ws g env cache snap pre rest name p hpre henv,
      routeGET_debug_success ck em ws g env cache' snap pre rest name p hpre henv]
  · rw [routeGET_debug_success ck em ws g env cache snap pre rest name p hpre henv]
  · show (routeGET "XAU-CAD" "Failed to fetch gold price from all providers"
        true g "1" env cache snap).snapshot = _
    rw [routeGET_debug_success "XAU-CAD"
      "Failed to fetch gold price from all providers" true g env cache snap
      pre rest name p hpre henv]
    simp

/-- Witness for `debug_bypasses_and_skips_cache` in the two-provider sample
environment, with a non-empty alternative cache. -/
theorem debug_bypasses_and_skips_cache_witness :
    (routeGET "XAU-CAD" "Failed to fetch gold price from all providers" true
        "" "1" envTwoProviders [] []).res
      = (routeGET "XAU-CAD" "Failed to fetch gold price from all providers" true
        "" "1" envTwoProviders [("XAU-CAD", ⟨0, pBadGoldApi⟩)] []).res
    ∧ (goldGET "" "1" envTwoProviders [] []).snapshot
      = updateMonthlyPriceFile true true [] "2024-01" "t" pMetals := by
  have h := debug_bypasses_and_skips_cache "XAU-CAD"
    "Failed to fetch gold price from all providers" true "" envTwoProviders
    [] [("XAU-CAD", ⟨0, pBadGoldApi⟩)] [] [("goldapi.io", .noData)]
    [("fcsapi", .threw "boom")] "metals-api" pMetals (by decide) rfl
  exact ⟨h.1, h.2.2⟩

/-- C6: snapshot-store write failures are never surfaced: the response and the
final cache state of a resolution are identical whatever the fault flags of
the monthly file's load and persist steps, the write operation being total
(`updateMonthlyPriceFile` catches every fault internally). -/
theorem snapshot_write_faults_invisible (ck em : String) (ws : Bool)
    (g d : String) (env : Env) (cache : Cache) (snap : MonthlyStore)
    (lo po lo2 po2 : Bool) :
    (routeGET ck em ws g d
        { env with writeLoadOk := lo, persistOk := po } cache snap).res
      = (routeGET ck em ws g d
        { env with writeLoadOk := lo2, persistOk := po2 } cache snap).res
    ∧ (routeGET ck em ws g d
        { env with writeLoadOk := lo, persistOk := po } cache snap).cache
      = (routeGET ck em ws g d
        { env with writeLoadOk := lo2, persistOk := po2 } cache snap).cache := by
  simp only [routeGET]
  split
  · exact ⟨rfl, rfl⟩
  · split
    · exact ⟨rfl, rfl⟩
    · split
      · exact ⟨rfl, rfl⟩
      · exact ⟨rfl, rfl⟩

theorem getCachedPrice_miss (now : ℤ) (c : Cache) (k : String)
    (h : cacheLookup c k = none) : getCachedPrice now c k = (none, c) := by
  simp [getCachedPrice, h]

/-- C7: when every provider fails or is skipped, the cache read misses and no
snapshot record is available, the route answers the structured error body —
never an unhandled fault — and the per-provider `{provider, message}` records
are attached exactly when diagnostics were requested; without debug the chain
retains no diagnostics at all. -/
theorem total_failure_is_structured (ck em g d : String) (ws : Bool)
    (env : Env) (cache : Cache) (snap : MonthlyStore)
    (hmiss : cacheLookup cache ck = none)
    (hfail : ∀ x ∈ env.outcomes, x.2.isSuccess = false)
    (hsnap : getMonthlyFallback env.readOk snap env.currentMonth = none) :
    (routeGET ck em ws g d env cache snap).res
      = .err { error := em
               debugErrors := if d == "1"
                 then some (env.outcomes.filterMap diagOf) else none }
    ∧ (runChain false env.outcomes).2 = [] := by
  constructor
  · simp only [routeGET, getCachedPrice_miss env.now cache ck hmiss, ite_self,
      runChain_all_fail (d == "1") env.outcomes hfail, hsnap]
    cases hd : (d == "1") <;> simp [hd]
  · simp [runChain_all_fail false env.outcomes hfail]

/-- Witness for `total_failure_is_structured` in the all-fail environment
with an empty store, in debug mode. -/
theorem total_failure_is_structured_witness :
    (routeGET "XAU-CAD" "Failed to fetch gold price from all providers" true
        "" "1" envAllFail [] []).res
      = .err { error := "Failed to fetch gold price from all providers"
               debugErrors := some
                 [⟨"goldapi.io", "No data in response"⟩,
                  ⟨"metals-api", "No data in response"⟩,
                  ⟨"fcsapi", "boom"⟩,
                  ⟨"goldprice.org", "No data in response"⟩] } := by
  have h := total_failure_is_structured "XAU-CAD"
    "Failed to fetch gold price from all providers" "" "1" true envAllFail
    [] [] rfl (by decide) rfl
  exact h.1

/-- Gold response body used to instantiate the nisab theorems. -/
def gbSample : OkBody :=
  { price := 2, price_oz := 2, price_gram_24k := 1, currency := "CAD",
    provider := "metals-api", cached := false }

/-- Nisab response body produced from `gbSample` / `pMetals`. -/
def nbSample : NisabOkBody :=
  { nisab := 1 * NISAB_GRAMS, price_gram_24k := 1, nisab_grams := NISAB_GRAMS,
    currency := "CAD", provider := "metals-api", cached := false }

/-- C8: every successful nisab response — of the delegating route and of the
inlined-waterfall route, over cache hit, live success or snapshot fallback —
carries `nisab = price_gram_24k * 85`, a pure multiplication; a failed gold
resolution yields an error response; and the documented example holds:
`price_per_unit = 6274.64` gives `price_per_gram ≈ 201.7344` and
`nisab ≈ 17147.42`. -/
theorem nisab_is_85_gram_prices :
    (∀ (t : Bool) (gr : GetResult) (b : NisabOkBody),
        nisabGET t gr = .ok b →
        b.nisab = b.price_gram_24k * NISAB_GRAMS ∧ b.nisab_grams = 85)
    ∧ (∀ (t : Bool) (e : ErrBody), ∃ msg, nisabGET t (.err e) = .err msg)
    ∧ (∀ (dp : String) (env : Env) (cache : Cache) (snap : MonthlyStore)
        (b : NisabOkBody) (c2 : Cache),
        nisabChainGET dp env cache snap = (.ok b, c2) →
        b.nisab = b.price_gram_24k * NISAB_GRAMS)
    ∧ |6274.64 / gramsPerOz - 201.7344| < 1 / 10000
    ∧ |6274.64 / gramsPerOz * NISAB_GRAMS - 17147.42| < 1 / 100 := by
  refine ⟨?_, ?_, ?_, ?_, ?_⟩
  · intro t gr b h
    simp only [nisabGET] at h
    split at h
    · exact absurd h (by simp)
    · split at h
      · exact absurd h (by simp)
      · injection h with hb
        subst hb
        exact ⟨rfl, rfl⟩
  · intro t e
    cases t with
    | true => exact ⟨"Failed to calculate nisab value", rfl⟩
    | false => exact ⟨"Failed to fetch gold price", rfl⟩
  · intro dp env cache snap b c2 h
    simp only [nisabChainGET] at h
    split at h
    · injection h with h1 h2
      injection h1 with hb
      subst hb
      rfl
    · split at h
      · injection h with h1 h2
        injection h1 with hb
        subst hb
        rfl
      · split at h
        · injection h with h1 h2
          injection h1 with hb
          subst hb
          rfl
        · injection h with h1 h2
          exact absurd h1 (by simp)
  · rw [abs_lt]
    constructor <;> norm_num [gramsPerOz]
  · rw [abs_lt]
    constructor <;> norm_num [gramsPerOz, NISAB_GRAMS]

/-- Witness for `nisab_is_85_gram_prices`: the delegating route over a
successful gold body, and the inlined route over the two-provider sample. -/
theorem nisab_is_85_gram_prices_witness :
    (nbSample.nisab = nbSample.price_gram_24k * NISAB_GRAMS
      ∧ nbSample.nisab_grams = 85)
    ∧ nbSample.nisab = nbSample.price_gram_24k * NISAB_GRAMS := by
  exact ⟨nisab_is_85_gram_prices.1 false (.ok gbSample) nbSample rfl,
    nisab_is_85_gram_prices.2.2.1 "" envTwoProviders [] [] nbSample
      (setCachedPrice 0 [] "XAU-CAD" pMetals) rfl⟩

/-- C9: when the silver fcsapi adapter's USD→CAD conversion lookup responds
without a usable rate, the adapter substitutes the hardcoded 1.4 rate and
still returns a payload, whose ounce price is the USD ounce price times 1.4. -/
theorem fcs_silver_forex_fallback (usd : ℚ) (fbody : ForexBody)
    (h : fbody.rate = none ∨ fbody.rate = some 0) :
    fetchFcsApiSilver true (.resp true ⟨some usd⟩) (.resp true fbody)
      = some { price_oz := usd * 1.4
               price_gram_24k := usd * 1.4 / gramsPerOz
               currency := "CAD"
               provider := "fcsapi" } := by
  rcases h with h | h <;> simp [fetchFcsApiSilver, resolveUsdCad, h]

/-- Witness for `fcs_silver_forex_fallback` at a USD price of 10 and a forex
body with no rate field. -/
theorem fcs_silver_forex_fallback_witness :
    fetchFcsApiSilver true (.resp true ⟨some 10⟩) (.resp true ⟨none⟩)
      = some { price_oz := 10 * 1.4
               price_gram_24k := 10 * 1.4 / gramsPerOz
               currency := "CAD"
               provider := "fcsapi" } :=
  fcs_silver_forex_fallback 10 ⟨none⟩ (Or.inl rfl)

/-- C10: every successful response of the price routes — from the cache, a
live provider or the monthly fallback — has its top-level `price` equal to the
gram price exactly when the `grams` query parameter is `'true'`, and to the
per-unit (ounce) price otherwise. -/
theorem price_selects_unit (ck em : String) (ws : Bool) (g d : String)
    (env : Env) (cache : Cache) (snap : MonthlyStore) (b : OkBody)
    (h : (routeGET ck em ws g d env cache snap).res = .ok b) :
    b.price = if g == "true" then b.price_gram_24k else b.price_oz := by
  simp only [routeGET] at h
  split at h
  · injection h with hb
    subst hb
    rfl
  · split at h
    · injection h with hb
      subst hb
      rfl
    · split at h
      · injection h with hb
        subst hb
        rfl
      · exact absurd h (by simp)

/-- Response body of the live metals-api success in the sample environment. -/
def bMetalsOk : OkBody :=
  { price := 2, price_oz := 2, price_gram_24k := 1, currency := "CAD",
    provider := "metals-api", cached := false }

/-- Witness for `price_selects_unit` on the two-provider sample without the
grams parameter. -/
theorem price_selects_unit_witness :
    bMetalsOk.price
      = if ("" : String) == "true" then bMetalsOk.price_gram_24k
        else bMetalsOk.price_oz :=
  price_selects_unit "XAU-CAD" "Failed to fetch gold price from all providers"
    true "" "" envTwoProviders [] [] bMetalsOk (by decide)

end ZakatApi
